import Mathlib

/-!
Verification of the bouncing-ball animation core (`src/script.js`, the
game-over variant, lines 202-450).  Positions, velocities, radii and the
values drawn from the random source are modelled as rationals; the DOM
(canvas element, buttons, counter text) is modelled by the fields of
`Game` that the core logic reads or writes (`addBtnDisabled`,
`clearBtnDisabled`, `gameOverBoxHidden`).  Randomness is modelled by an
explicit stream of rationals consumed one value per `Math.random()` call.
-/

/-- The random source: a stream of rationals (each call to the JS
`Math.random()` reads the value at the current index and advances it). -/
structure RNG where
  seq : Nat → ℚ
  idx : Nat

/-- One `Math.random()` call: the drawn value and the advanced source. -/
def RNG.rand (r : RNG) : ℚ × RNG := (r.seq r.idx, ⟨r.seq, r.idx + 1⟩)

/-- A ball (`class Ball` / `class MovingBall`, script.js lines 204-279).
`accel = none` models a plain `Ball`; `accel = some (ax, ay)` models a
`MovingBall` carrying the constant acceleration pair. The color is kept
as its random hue. -/
@[ext]
structure Ball where
  x : ℚ
  y : ℚ
  speedX : ℚ
  speedY : ℚ
  radius : ℚ
  hue : ℚ
  accel : Option (ℚ × ℚ)

/-- `Ball` constructor (script.js lines 205-222): radius from
`Math.random() * 15 + 10`; each coordinate taken from the argument when
given, otherwise drawn as `Math.random() * (dim - radius * 2) + radius`
(the random call happens only in the null branch, as in JS conditional
evaluation); each speed is `(Math.random() * 2 + 1)` times a random sign;
the hue is `Math.random() * 360`. -/
def mkBall (cw ch : ℚ) (px py : Option ℚ) (r0 : RNG) : Ball × RNG :=
  let u0 := r0.rand
  let radius := u0.1 * 15 + 10
  let xr : ℚ × RNG :=
    match px with
    | some v => (v, u0.2)
    | none => let u := u0.2.rand; (u.1 * (cw - radius * 2) + radius, u.2)
  let yr : ℚ × RNG :=
    match py with
    | some v => (v, xr.2)
    | none => let u := xr.2.rand; (u.1 * (ch - radius * 2) + radius, u.2)
  let u1 := yr.2.rand
  let u2 := u1.2.rand
  let speedX := (u1.1 * 2 + 1) * (if u2.1 < 1/2 then -1 else 1)
  let u3 := u2.2.rand
  let u4 := u3.2.rand
  let speedY := (u3.1 * 2 + 1) * (if u4.1 < 1/2 then -1 else 1)
  let uh := u4.2.rand
  (⟨xr.1, yr.1, speedX, speedY, radius, uh.1 * 360, none⟩, uh.2)

/-- `MovingBall` constructor (script.js lines 268-272): the `Ball`
constructor followed by `ax = (Math.random() - 0.5) * 0.02` and likewise
`ay` (0.5 = 1/2 and 0.02 = 1/50 as exact rationals). -/
def mkMovingBall (cw ch : ℚ) (px py : Option ℚ) (r0 : RNG) : Ball × RNG :=
  let br := mkBall cw ch px py r0
  let u1 := br.2.rand
  let u2 := u1.2.rand
  ({ br.1 with accel := some ((u1.1 - 1/2) * (1/50), (u2.1 - 1/2) * (1/50)) }, u2.2)

/-- One axis of `Ball.update` (script.js lines 234-256): the speed is
added to the position first; then, if the leading edge passes the far
bound, the position is set to the tangent point and the speed negated;
otherwise, if the trailing edge passes zero, the same at the near bound;
otherwise nothing.  The far-bound test comes first and the two branches
are exclusive (`if` / `else if`). -/
def bounce (pos speed radius bound : ℚ) : ℚ × ℚ :=
  let p := pos + speed
  if bound < p + radius then (bound - radius, speed * (-1))
  else if p - radius < 0 then (radius, speed * (-1))
  else (p, speed)

/-- `Ball.update` / `MovingBall.update` (script.js lines 234-256 and
274-278): a `MovingBall` first adds its acceleration to its speed; then
both axes integrate and bounce independently against the current canvas
size. -/
def Ball.update (cw ch : ℚ) (b0 : Ball) : Ball :=
  let b : Ball :=
    match b0.accel with
    | some a => { b0 with speedX := b0.speedX + a.1, speedY := b0.speedY + a.2 }
    | none => b0
  { b with
    x := (bounce b.x b.speedX b.radius cw).1
    speedX := (bounce b.x b.speedX b.radius cw).2
    y := (bounce b.y b.speedY b.radius ch).1
    speedY := (bounce b.y b.speedY b.radius ch).2 }

/-- `Ball.clampToBounds` (script.js lines 258-264):
`x = Math.max(radius, Math.min(x, cw - radius))` and likewise for `y`;
speeds are untouched. -/
def Ball.clampToBounds (cw ch : ℚ) (b : Ball) : Ball :=
  { b with
    x := max b.radius (min b.x (cw - b.radius))
    y := max b.radius (min b.y (ch - b.radius)) }

/-- The session (`class Game`, script.js lines 281-448): the ball list in
insertion order, the game-over flag, the enabled/disabled state of the
two buttons, the visibility of the game-over box, the current canvas
size in CSS pixels, and the random source. -/
structure Game where
  balls : List Ball
  isGameOver : Bool
  addBtnDisabled : Bool
  clearBtnDisabled : Bool
  gameOverBoxHidden : Bool
  cw : ℚ
  ch : ℚ
  rng : RNG

/-- `Game.checkGameOver` (script.js lines 333-341): when the ball count
has reached 100 AND the game is not yet over, it sets the game-over flag,
disables both buttons, shows the game-over box and returns `true`;
in every other case (including when the game is already over) it returns
`false` and changes nothing. -/
def Game.checkGameOver (g : Game) : Bool × Game :=
  if 100 ≤ g.balls.length ∧ g.isGameOver = false then
    (true, { g with isGameOver := true, addBtnDisabled := true,
                    clearBtnDisabled := true, gameOverBoxHidden := false })
  else (false, g)

/-- The shared tail of the three spawn paths: clamp the freshly built
ball to the current bounds and push it onto the list (the DOM counter
update has no model state). -/
def Game.pushBall (g : Game) (br : Ball × RNG) : Game :=
  { g with balls := g.balls ++ [br.1.clampToBounds g.cw g.ch], rng := br.2 }

/-- `Game.addRandomBall` (script.js lines 364-374): first the game-over
check, returning early when it fires; otherwise a 50/50 choice between a
plain `Ball` and a `MovingBall` with random placement, clamped and
pushed. -/
def Game.addRandomBall (g0 : Game) : Game :=
  let p := g0.checkGameOver
  if p.1 then p.2
  else
    let g := p.2
    let u := g.rng.rand
    g.pushBall (if u.1 < 1/2 then mkBall g.cw g.ch none none u.2
                else mkMovingBall g.cw g.ch none none u.2)

/-- `Game.addBallOnClick` (script.js lines 376-390), with the click
coordinates already translated to CSS pixels by the excluded input
plumbing: game-over check, then a 50/50 choice of variant at the given
point, clamped and pushed. -/
def Game.addBallOnClick (g0 : Game) (x y : ℚ) : Game :=
  let p := g0.checkGameOver
  if p.1 then p.2
  else
    let g := p.2
    let u := g.rng.rand
    g.pushBall (if u.1 < 1/2 then mkBall g.cw g.ch (some x) (some y) u.2
                else mkMovingBall g.cw g.ch (some x) (some y) u.2)

/-- `Game.addBallOnTouch` (script.js lines 392-404): like the click path
but always a `MovingBall`. -/
def Game.addBallOnTouch (g0 : Game) (x y : ℚ) : Game :=
  let p := g0.checkGameOver
  if p.1 then p.2
  else
    let g := p.2
    g.pushBall (mkMovingBall g.cw g.ch (some x) (some y) g.rng)

/-- `Game.clearBalls` (script.js lines 406-411): a no-op while the clear
button is disabled, otherwise empties the ball list. -/
def Game.clearBalls (g : Game) : Game :=
  if g.clearBtnDisabled then g else { g with balls := [] }

/-- The seeding loop `for (let i = 0; i < n; i++) this.addRandomBall()`
used by the `Game` constructor (line 316) and `restartGame` (line 421). -/
def Game.spawnN : Nat → Game → Game
  | 0, g => g
  | n + 1, g => Game.spawnN n g.addRandomBall

/-- `Game.restartGame` (script.js lines 413-424): clears the game-over
flag (twice in the source), empties the ball list, re-enables both
buttons, hides the game-over box, and seeds 20 balls via
`addRandomBall`. -/
def Game.restartGame (g0 : Game) : Game :=
  let g : Game :=
    { g0 with isGameOver := false, balls := [],
              addBtnDisabled := false, clearBtnDisabled := false,
              gameOverBoxHidden := true }
  Game.spawnN 20 g

/-- One tick of `Game.loop` (script.js lines 435-447): for each ball in
insertion order, `update` is called only when the game is not over, and
`draw` is always called (on the just-updated ball).  The first component
is the state after the tick; the second lists the balls passed to `draw`,
in call order. -/
def Game.loop (g : Game) : Game × List Ball :=
  let balls := g.balls.map (fun b => if g.isGameOver then b else b.update g.cw g.ch)
  ({ g with balls := balls }, balls)

/-! ### Concrete states used by the witnesses and counterexamples -/

/-- A fixed ball used to populate concrete states. -/
def staticBall : Ball := ⟨50, 50, 2, 2, 10, 0, none⟩

/-- A determinate random source (every draw is 1/2). -/
def halfRng : RNG := ⟨fun _ => 1/2, 0⟩

/-- A reachable game-over state: 100 balls, flag set, buttons disabled,
box shown (as `checkGameOver` leaves them), bounds 400 × 300. -/
def overGame : Game :=
  { balls := List.replicate 100 staticBall, isGameOver := true,
    addBtnDisabled := true, clearBtnDisabled := true,
    gameOverBoxHidden := false, cw := 400, ch := 300, rng := halfRng }

/-- A playing state one spawn short of the threshold: 99 balls,
bounds 400 × 300. -/
def game99 : Game :=
  { balls := List.replicate 99 staticBall, isGameOver := false,
    addBtnDisabled := false, clearBtnDisabled := false,
    gameOverBoxHidden := true, cw := 400, ch := 300, rng := halfRng }

/-! ### Helper lemmas shared by several claims -/

/-- Below the threshold, a spawn attempt always admits exactly one ball
and leaves the game-over flag as it was. -/
theorem addRandomBall_below (g : Game) (h : g.balls.length < 100) :
    (g.addRandomBall).balls.length = g.balls.length + 1 ∧
    (g.addRandomBall).isGameOver = g.isGameOver := by
  have hc : ¬ (100 ≤ g.balls.length ∧ g.isGameOver = false) := by
    intro hcon
    exact absurd hcon.1 (Nat.not_le.mpr h)
  simp [Game.addRandomBall, Game.checkGameOver, Game.pushBall, hc]

/-- At or above the threshold while still playing, a spawn attempt is
rejected and flips the session to game over. -/
theorem addRandomBall_full (g : Game) (h1 : 100 ≤ g.balls.length)
    (h2 : g.isGameOver = false) :
    (g.addRandomBall).balls = g.balls ∧ (g.addRandomBall).isGameOver = true := by
  have hc : 100 ≤ g.balls.length ∧ g.isGameOver = false := ⟨h1, h2⟩
  simp [Game.addRandomBall, Game.checkGameOver, hc]

/-- Iterated spawning below the threshold adds one ball per iteration and
keeps the session playing. -/
theorem spawnN_length (n : Nat) : ∀ g : Game, g.balls.length + n ≤ 100 →
    g.isGameOver = false →
    (Game.spawnN n g).balls.length = g.balls.length + n ∧
    (Game.spawnN n g).isGameOver = false := by
  induction n with
  | zero => intro g hle hover; simpa using ⟨rfl, hover⟩
  | succ n ih =>
      intro g hle hover
      have hlt : g.balls.length < 100 := by omega
      obtain ⟨h1, h2⟩ := addRandomBall_below g hlt
      obtain ⟨h3, h4⟩ := ih g.addRandomBall (by omega) (h2.trans hover)
      refine ⟨?_, h4⟩
      simp only [Game.spawnN] at h3 ⊢
      omega

/-- After one axis bounce, the position is inside the legal band whenever
the dimension is at least the diameter. -/
theorem bounce_mem (pos speed radius bound : ℚ) (h : 2 * radius ≤ bound) :
    radius ≤ (bounce pos speed radius bound).1 ∧
    (bounce pos speed radius bound).1 ≤ bound - radius := by
  simp only [bounce]
  split_ifs with h1 h2 <;> constructor <;> simp only [] <;> linarith

/-- Composing the one-axis clamp with itself changes nothing. -/
theorem clamp1_idem (r M x : ℚ) :
    max r (min (max r (min x M)) M) = max r (min x M) := by
  rw [max_min_distrib_left, ← max_assoc, max_self]
  exact min_eq_left (max_le_max le_rfl (min_le_right x M))

/-! ### The claims -/

/-- Claim C1 is violated by the code: in the reachable game-over state
with exactly 100 balls, a further random spawn attempt — and likewise a
click spawn attempt — succeeds and brings the count to 101, because
`checkGameOver` returns `false` once `isGameOver` is already set, so the
guard `if (this.checkGameOver()) return;` does not fire. -/
theorem addRandomBall_in_over_adds_ball :
    overGame.isGameOver = true ∧
    overGame.balls.length = 100 ∧
    (overGame.addRandomBall).balls.length = 101 ∧
    (overGame.addBallOnClick 50 50).balls.length = 101 := by
  refine ⟨rfl, by decide, ?_, ?_⟩ <;> decide

/-- Claim C2 as stated is false at bounds 400 × 300: from 99 balls in
phase Playing, the next successful spawn leaves the count at 100 but the
phase still Playing (`isGameOver = false`), not Over — the game-over
check ran at the start of that spawn, when the count was still 99. -/
theorem spawn_reaching_100_leaves_playing :
    game99.balls.length = 99 ∧ game99.isGameOver = false ∧
    (game99.addRandomBall).balls.length = 100 ∧
    (game99.addRandomBall).isGameOver = false := by
  refine ⟨by decide, rfl, ?_, ?_⟩ <;> decide

/-- Claim C2 (amended): the threshold check is evaluated at the start of
each spawn attempt, before the new ball exists, so from 99 balls in phase
Playing one more successful spawn leaves count 100 with the phase still
Playing; the transition to Over fires at the start of the next spawn
attempt, which is rejected, leaving the count at 100 and the phase
Over. -/
theorem playing_to_over_on_next_attempt (g : Game)
    (hlen : g.balls.length = 99) (hover : g.isGameOver = false) :
    (g.addRandomBall).balls.length = 100 ∧
    (g.addRandomBall).isGameOver = false ∧
    (g.addRandomBall.addRandomBall).balls.length = 100 ∧
    (g.addRandomBall.addRandomBall).isGameOver = true := by
  obtain ⟨h1, h2⟩ := addRandomBall_below g (by omega)
  have h1' : (g.addRandomBall).balls.length = 100 := by omega
  obtain ⟨h3, h4⟩ := addRandomBall_full g.addRandomBall (by omega) (h2.trans hover)
  refine ⟨h1', h2.trans hover, ?_, h4⟩
  rw [h3]; exact h1'

/-- Witness for the amended C2 at the concrete 99-ball state. -/
theorem playing_to_over_on_next_attempt_witness :
    game99.balls.length = 99 ∧ game99.isGameOver = false ∧
    ((game99.addRandomBall).balls.length = 100 ∧
     (game99.addRandomBall).isGameOver = false ∧
     (game99.addRandomBall.addRandomBall).balls.length = 100 ∧
     (game99.addRandomBall.addRandomBall).isGameOver = true) :=
  ⟨by decide, rfl, playing_to_over_on_next_attempt game99 (by decide) rfl⟩

/-- Claim C3: for every ball (of either variant) and any pre-update
position and velocity, one `update` leaves each coordinate inside
`[radius, dimension - radius]`, provided each bounds dimension is at
least twice the radius. -/
theorem update_position_in_bounds (b : Ball) (cw ch : ℚ)
    (hw : 2 * b.radius ≤ cw) (hh : 2 * b.radius ≤ ch) :
    b.radius ≤ (b.update cw ch).x ∧ (b.update cw ch).x ≤ cw - b.radius ∧
    b.radius ≤ (b.update cw ch).y ∧ (b.update cw ch).y ≤ ch - b.radius := by
  rcases hb : b.accel with _ | a <;>
    simp only [Ball.update, hb] <;>
    exact ⟨(bounce_mem _ _ _ _ hw).1, (bounce_mem _ _ _ _ hw).2,
           (bounce_mem _ _ _ _ hh).1, (bounce_mem _ _ _ _ hh).2⟩

/-- Witness for C3 at a concrete ball and bounds 400 × 300. -/
theorem update_position_in_bounds_witness :
    2 * staticBall.radius ≤ (400 : ℚ) ∧ 2 * staticBall.radius ≤ (300 : ℚ) ∧
    (staticBall.radius ≤ (staticBall.update 400 300).x ∧
     (staticBall.update 400 300).x ≤ 400 - staticBall.radius ∧
     staticBall.radius ≤ (staticBall.update 400 300).y ∧
     (staticBall.update 400 300).y ≤ 300 - staticBall.radius) :=
  ⟨by norm_num [staticBall], by norm_num [staticBall],
   update_position_in_bounds staticBall 400 300 (by norm_num [staticBall])
     (by norm_num [staticBall])⟩

/-- A ball whose diameter (20) exceeds the 10 × 10 bounds used in the C4
counterexample. -/
def tinyBall : Ball := ⟨7, 7, 1, 1, 10, 0, none⟩

/-- Claim C4 is false as stated: with bounds 10 × 10 and radius 10 the
clamp interval [10, 0] is inverted, and `clampToBounds` puts the
coordinate at the radius (10), not at the midpoint of the dimension
(5). -/
theorem clamp_inverted_not_midpoint :
    (10 : ℚ) < 2 * tinyBall.radius ∧
    (tinyBall.clampToBounds 10 10).x = 10 ∧ (10 : ℚ) / 2 = 5 ∧ (10 : ℚ) ≠ 5 := by
  refine ⟨by norm_num [tinyBall], ?_, by norm_num, by norm_num⟩
  show max tinyBall.radius (min tinyBall.x (10 - tinyBall.radius)) = 10
  norm_num [tinyBall]

/-- Claim C4 (amended): when a bounds dimension is smaller than twice the
radius (inverted clamp interval), `clampToBounds` sets that coordinate to
the radius — the near bound, because the outer `Math.max` wins — and, the
function being total on the rationals, it yields a value (no NaN, no
exception). -/
theorem clamp_inverted_to_radius (b : Ball) (cw ch : ℚ)
    (hw : cw - b.radius < b.radius) (hh : ch - b.radius < b.radius) :
    (b.clampToBounds cw ch).x = b.radius ∧ (b.clampToBounds cw ch).y = b.radius := by
  refine ⟨?_, ?_⟩
  · show max b.radius (min b.x (cw - b.radius)) = b.radius
    exact max_eq_left ((min_le_right _ _).trans hw.le)
  · show max b.radius (min b.y (ch - b.radius)) = b.radius
    exact max_eq_left ((min_le_right _ _).trans hh.le)

/-- Witness for the amended C4 at the concrete degenerate bounds. -/
theorem clamp_inverted_to_radius_witness :
    (10 : ℚ) - tinyBall.radius < tinyBall.radius ∧
    ((tinyBall.clampToBounds 10 10).x = tinyBall.radius ∧
     (tinyBall.clampToBounds 10 10).y = tinyBall.radius) :=
  ⟨by norm_num [tinyBall],
   clamp_inverted_to_radius tinyBall 10 10 (by norm_num [tinyBall])
     (by norm_num [tinyBall])⟩

/-- The ball of the C5 scenario: position (5,5), velocity (-3,-3),
radius 10. -/
def scenarioBall : Ball := ⟨5, 5, -3, -3, 10, 0, none⟩

/-- Claim C5: under bounds 400 × 300 one `update` of the scenario ball
reflects both axes in the same tick, yielding position (10,10) and
velocity (3,3); and on each axis the far-bound test is decided first:
whenever the integrated leading edge passes the far bound, the far branch
alone fires, even if the near condition would also hold. -/
theorem update_reflects_both_axes :
    ((scenarioBall.update 400 300).x = 10 ∧ (scenarioBall.update 400 300).y = 10 ∧
     (scenarioBall.update 400 300).speedX = 3 ∧ (scenarioBall.update 400 300).speedY = 3) ∧
    ∀ pos speed radius bound : ℚ, bound < pos + speed + radius →
      bounce pos speed radius bound = (bound - radius, speed * (-1)) := by
  constructor
  · refine ⟨?_, ?_, ?_, ?_⟩ <;> norm_num [Ball.update, bounce, scenarioBall]
  · intro pos speed radius bound h
    simp only [bounce]
    rw [if_pos h]

/-- Witness for the universally quantified half of C5 at a concrete
axis state that passes the far bound. -/
theorem update_reflects_both_axes_witness :
    (400 : ℚ) < 395 + 10 + 10 ∧
    bounce 395 10 10 400 = (400 - 10, 10 * (-1)) :=
  ⟨by norm_num, update_reflects_both_axes.2 395 10 10 400 (by norm_num)⟩

/-- Claim C6: restarting from phase Over leaves exactly 20 balls and the
phase Playing. -/
theorem restartGame_from_over (g : Game) (h : g.isGameOver = true) :
    (g.restartGame).balls.length = 20 ∧ (g.restartGame).isGameOver = false := by
  simp only [Game.restartGame]
  obtain ⟨h1, h2⟩ := spawnN_length 20
    { g with isGameOver := false, balls := [],
             addBtnDisabled := false, clearBtnDisabled := false,
             gameOverBoxHidden := true } (by simp) rfl
  exact ⟨by simpa using h1, h2⟩

/-- Witness for C6 at the concrete 100-ball game-over state. -/
theorem restartGame_from_over_witness :
    overGame.isGameOver = true ∧
    ((overGame.restartGame).balls.length = 20 ∧
     (overGame.restartGame).isGameOver = false) :=
  ⟨rfl, restartGame_from_over overGame rfl⟩

/-- Claim C7: during a tick taken in phase Over no ball is updated (the
ball list after the tick is unchanged), while every ball is still drawn,
in insertion order. -/
theorem loop_frozen_when_over (g : Game) (h : g.isGameOver = true) :
    (g.loop).1.balls = g.balls ∧ (g.loop).2 = g.balls := by
  simp [Game.loop, h]

/-- Witness for C7 at the concrete 100-ball game-over state. -/
theorem loop_frozen_when_over_witness :
    overGame.isGameOver = true ∧
    ((overGame.loop).1.balls = overGame.balls ∧
     (overGame.loop).2 = overGame.balls) :=
  ⟨rfl, loop_frozen_when_over overGame rfl⟩

/-- Claim C8: `clampToBounds` is idempotent for every ball and any
bounds, degenerate ones included, and it never modifies the speeds. -/
theorem clampToBounds_idem (b : Ball) (cw ch : ℚ) :
    (b.clampToBounds cw ch).clampToBounds cw ch = b.clampToBounds cw ch ∧
    (b.clampToBounds cw ch).speedX = b.speedX ∧
    (b.clampToBounds cw ch).speedY = b.speedY := by
  refine ⟨?_, rfl, rfl⟩
  ext <;> first
    | rfl
    | exact clamp1_idem b.radius (cw - b.radius) b.x
    | exact clamp1_idem b.radius (ch - b.radius) b.y

/-- The random stream function survives the `Ball` constructor (only the
index advances). -/
theorem mkBall_seq (cw ch : ℚ) (px py : Option ℚ) (r0 : RNG) :
    ((mkBall cw ch px py r0).2).seq = r0.seq := by
  cases px <;> cases py <;> rfl

/-- Claim C9: a freshly constructed `MovingBall` carries an acceleration
pair, each component in [-1/100, 1/100) when the random source yields
values in [0, 1); and no later operation (`update`, `clampToBounds`)
modifies the acceleration of any ball. -/
theorem movingBall_accel_range (cw ch : ℚ) (px py : Option ℚ) (r0 : RNG)
    (hr : ∀ i, 0 ≤ r0.seq i ∧ r0.seq i < 1) :
    ∃ ax ay, ((mkMovingBall cw ch px py r0).1).accel = some (ax, ay) ∧
      -(1/100) ≤ ax ∧ ax < 1/100 ∧ -(1/100) ≤ ay ∧ ay < 1/100 ∧
      (∀ b : Ball, ∀ cw2 ch2 : ℚ,
        (Ball.update cw2 ch2 b).accel = b.accel ∧
        (Ball.clampToBounds cw2 ch2 b).accel = b.accel) := by
  have hs := mkBall_seq cw ch px py r0
  refine ⟨((mkBall cw ch px py r0).2.seq ((mkBall cw ch px py r0).2.idx) - 1/2) * (1/50),
          ((mkBall cw ch px py r0).2.seq ((mkBall cw ch px py r0).2.idx + 1) - 1/2) * (1/50),
          rfl, ?_, ?_, ?_, ?_, ?_⟩
  · rw [hs]
    obtain ⟨ha, _⟩ := hr ((mkBall cw ch px py r0).2.idx)
    linarith
  · rw [hs]
    obtain ⟨_, hb⟩ := hr ((mkBall cw ch px py r0).2.idx)
    linarith
  · rw [hs]
    obtain ⟨ha, _⟩ := hr ((mkBall cw ch px py r0).2.idx + 1)
    linarith
  · rw [hs]
    obtain ⟨_, hb⟩ := hr ((mkBall cw ch px py r0).2.idx + 1)
    linarith
  · intro b cw2 ch2
    refine ⟨?_, rfl⟩
    rcases hb : b.accel with _ | a <;> simp [Ball.update, hb]

/-- Witness for C9 with the determinate random source. -/
theorem movingBall_accel_range_witness :
    (∀ i, 0 ≤ halfRng.seq i ∧ halfRng.seq i < 1) ∧
    (∃ ax ay, ((mkMovingBall 400 300 none none halfRng).1).accel = some (ax, ay) ∧
      -(1/100) ≤ ax ∧ ax < 1/100 ∧ -(1/100) ≤ ay ∧ ay < 1/100 ∧
      (∀ b : Ball, ∀ cw2 ch2 : ℚ,
        (Ball.update cw2 ch2 b).accel = b.accel ∧
        (Ball.clampToBounds cw2 ch2 b).accel = b.accel)) :=
  ⟨fun _ => ⟨by norm_num [halfRng], by norm_num [halfRng]⟩,
   movingBall_accel_range 400 300 none none halfRng
     (fun _ => ⟨by norm_num [halfRng], by norm_num [halfRng]⟩)⟩

/-- Claim C10: `restartGame` is not gated on the phase — invoked while
already Playing it likewise discards the balls, reseeds exactly 20, and
leaves the phase Playing. -/
theorem restartGame_from_playing (g : Game) (h : g.isGameOver = false) :
    (g.restartGame).balls.length = 20 ∧ (g.restartGame).isGameOver = false := by
  simp only [Game.restartGame]
  obtain ⟨h1, h2⟩ := spawnN_length 20
    { g with isGameOver := false, balls := [],
             addBtnDisabled := false, clearBtnDisabled := false,
             gameOverBoxHidden := true } (by simp) rfl
  exact ⟨by simpa using h1, h2⟩

/-- Witness for C10 at the concrete 99-ball playing state. -/
theorem restartGame_from_playing_witness :
    game99.isGameOver = false ∧
    ((game99.restartGame).balls.length = 20 ∧
     (game99.restartGame).isGameOver = false) :=
  ⟨rfl, restartGame_from_playing game99 rfl⟩
